import Mathlib

/-!
Verification of the signal-processing core of the AI-Computer-Vision-Analytics
platform: shallow embedding of the stateful detectors
(blink, sleep, fatigue, eye/wink gestures, head tracker, finger/gesture
classifier) from `src/utils`, with theorems settling the spec claims.

Conventions of the embedding:
- JavaScript numbers are modelled as exact rationals (`ℚ`) for the purely
  arithmetic state machines, and as real numbers (`ℝ`) for the geometric code
  that uses `Math.sqrt` / `Math.atan2` (the spec states these properties over
  idealized real-number semantics).
- `Date.now()` timestamps are explicit `ℤ` (milliseconds) parameters.
- A landmark set is a total function from indices to points, faithful for all
  in-range accesses (the claims under consideration only concern inputs that
  contain every referenced index).
- Each TypeScript class becomes a `State` structure plus pure step functions;
  a method that mutates `this` and returns a result becomes a function
  returning `Result × State`.
-/

/-! ### BlinkDetector (headTracking.ts, class BlinkDetector)

The per-frame state machine of `BlinkDetector.detect` depends on the landmarks
only through the computed `avgEAR`; the machine is embedded as a step function
driven directly by the per-frame `avgEAR` value, as the spec claims are stated
over `avgEAR` sequences. `EAR_THRESHOLD` is declared `readonly = 0.21` in the
source but is mutated by `setThreshold` through an `any`-cast, so it is part of
the state here. `CONSEC_FRAMES` is the constant 2 and is never reassigned.
-/

namespace BlinkDetector

structure State where
  frameCounter : ℕ
  blinkCount : ℕ
  earThreshold : ℚ
  deriving DecidableEq

/-- A fresh `new BlinkDetector()`: counters 0, `EAR_THRESHOLD = 0.21`. -/
def init : State :=
  { frameCounter := 0, blinkCount := 0, earThreshold := 0.21 }

/-- The `CONSEC_FRAMES` constant of the source. -/
def CONSEC_FRAMES : ℕ := 2

/-- State update of `BlinkDetector.detect` for one frame with the given
`avgEAR`: below the threshold the consecutive-frame counter is incremented;
otherwise the blink total is incremented when the counter had reached
`CONSEC_FRAMES`, and the counter is reset to 0. -/
def step (avgEAR : ℚ) (s : State) : State :=
  if avgEAR < s.earThreshold then
    { s with frameCounter := s.frameCounter + 1 }
  else if s.frameCounter ≥ CONSEC_FRAMES then
    { s with blinkCount := s.blinkCount + 1, frameCounter := 0 }
  else
    { s with frameCounter := 0 }

/-- The per-frame `isBlinking` boolean returned by `detect`. -/
def isBlinking (avgEAR : ℚ) (s : State) : Bool :=
  decide (avgEAR < s.earThreshold)

/-- Feeding a sequence of frames (given by their `avgEAR` values) one by one. -/
def feed (ears : List ℚ) (s : State) : State :=
  ears.foldl (fun st e => step e st) s

/-- `getBlinkCount()`. -/
def getBlinkCount (s : State) : ℕ := s.blinkCount

/-- `resetBlinkCount()`. -/
def resetBlinkCount (s : State) : State := { s with blinkCount := 0 }

/-- `setThreshold(threshold)` assigns the raw argument to `EAR_THRESHOLD`
through an `any`-cast, without any validation or clamping. -/
def setThreshold (threshold : ℚ) (s : State) : State :=
  { s with earThreshold := threshold }

end BlinkDetector

/-! ### SleepDetector (fatigueDetection.ts, class SleepDetector)

`detect(landmarks)` first derives two booleans from the geometry —
`eyesClosed = areEyesClosed(landmarks, EAR_THRESHOLD)` and
`isHeadDown = headPose.pitch > PITCH_THRESHOLD` — and from then on operates
only on those booleans, the clock and its counters. The step function below
takes the two booleans as inputs; the geometric derivation itself is the EAR
machinery embedded later in this file. The frame thresholds are the source
constants `EYE_CLOSED_THRESHOLD = 45`, `HEAD_DOWN_THRESHOLD = 30`.
-/

namespace SleepDetector

structure State where
  eyeClosedFrames : ℕ
  headDownFrames : ℕ
  sleepStartTime : Option ℤ
  totalSleepDuration : ℤ
  deriving DecidableEq

/-- A fresh `new SleepDetector()`. -/
def init : State :=
  { eyeClosedFrames := 0, headDownFrames := 0,
    sleepStartTime := none, totalSleepDuration := 0 }

def EYE_CLOSED_THRESHOLD : ℕ := 45

def HEAD_DOWN_THRESHOLD : ℕ := 30

/-- `Math.round` of JavaScript: half-way cases round toward positive
infinity. -/
def jsRound (q : ℚ) : ℤ := ⌊q + 1 / 2⌋

/-- The eye contribution of the sleep confidence score:
`Math.min(100, (eyeClosedFrames / EYE_CLOSED_THRESHOLD) * 60)`. -/
def eyeScore (eyeClosedFrames : ℕ) : ℚ :=
  min 100 ((eyeClosedFrames : ℚ) / 45 * 60)

/-- The head contribution of the sleep confidence score:
`Math.min(40, (headDownFrames / HEAD_DOWN_THRESHOLD) * 40)`. -/
def headScore (headDownFrames : ℕ) : ℚ :=
  min 40 ((headDownFrames : ℚ) / 30 * 40)

structure Result where
  isSleeping : Bool
  sleepScore : ℤ
  eyeClosedDuration : ℕ
  headDownDuration : ℕ
  isHeadDown : Bool
  deriving DecidableEq

/-- State-and-result computation of `SleepDetector.detect`, driven by the two
booleans `detect` derives from the landmarks. Counters increment while their
condition holds and decay by 2 (floored at 0, `ℕ` subtraction) otherwise;
sleeping is the OR of the three factors; the confidence score is
`min(100, eyeScore + headScore)` rounded. -/
def detectStep (eyesClosed isHeadDown : Bool) (currentTime : ℤ) (s : State) :
    Result × State :=
  let e := if eyesClosed then s.eyeClosedFrames + 1 else s.eyeClosedFrames - 2
  let h := if isHeadDown then s.headDownFrames + 1 else s.headDownFrames - 2
  let eyesFactor : Bool := decide (e ≥ EYE_CLOSED_THRESHOLD)
  let headFactor : Bool := decide (h ≥ HEAD_DOWN_THRESHOLD)
  let combinedFactor : Bool := eyesClosed && decide (h ≥ HEAD_DOWN_THRESHOLD / 2)
  let isSleeping : Bool := eyesFactor || (eyesClosed && headFactor) || combinedFactor
  let sleepStartTime' :=
    if isSleeping then
      (if s.sleepStartTime = none then some currentTime else s.sleepStartTime)
    else none
  let totalSleepDuration' :=
    if isSleeping then s.totalSleepDuration
    else
      match s.sleepStartTime with
      | some t => s.totalSleepDuration + (currentTime - t)
      | none => s.totalSleepDuration
  let sleepScore := min 100 (eyeScore e + headScore h)
  ({ isSleeping := isSleeping,
     sleepScore := jsRound sleepScore,
     eyeClosedDuration := e,
     headDownDuration := h,
     isHeadDown := isHeadDown },
   { eyeClosedFrames := e,
     headDownFrames := h,
     sleepStartTime := sleepStartTime',
     totalSleepDuration := totalSleepDuration' })

/-- `reset()`. -/
def reset (_s : State) : State := init

end SleepDetector

/-! ### FatigueDetector (fatigueDetection.ts, class FatigueDetector)

Only the parts reaching the cumulative counters are embedded: yawn detection
(`processMouthState`), head-droop detection (`processHeadPosition`),
`recordBreak`, `reset` and `startSession`. The blink-timestamp bookkeeping of
`processEyeState` maintains sliding lists of timestamps, not cumulative
counters, and is not referenced by any claim.
-/

namespace FatigueDetector

structure State where
  yawnCount : ℕ
  lastYawnTime : ℤ
  mouthOpenDuration : ℤ
  mouthWasOpen : Bool
  mouthOpenStart : ℤ
  headYHistory : List ℚ
  headDroopEvents : ℕ
  headYBaseline : Option ℚ
  lastBreakTime : Option ℤ
  sessionStartTime : Option ℤ
  deriving DecidableEq

/-- A fresh `new FatigueDetector()`. -/
def init : State :=
  { yawnCount := 0, lastYawnTime := 0, mouthOpenDuration := 0,
    mouthWasOpen := false, mouthOpenStart := 0,
    headYHistory := [], headDroopEvents := 0, headYBaseline := none,
    lastBreakTime := none, sessionStartTime := none }

def YAWN_DURATION_THRESHOLD : ℤ := 2000

def HEAD_DROOP_THRESHOLD : ℚ := 0.15

/-- `processMouthState(isMouthOpen, mouthOpenRatio)` at wall-clock `now`:
while the mouth is wide open (`ratio > 0.6`) the open duration accumulates and
a yawn is counted once it reaches 2000 ms, subject to a 5000 ms cooldown since
the last counted yawn. -/
def processMouthState (now : ℤ) (isMouthOpen : Bool) (mouthOpenRatio : ℚ)
    (s : State) : State :=
  if isMouthOpen && decide (mouthOpenRatio > 0.6) then
    let start := if !s.mouthWasOpen then now else s.mouthOpenStart
    let dur := now - start
    if dur ≥ YAWN_DURATION_THRESHOLD ∧ now - s.lastYawnTime > 5000 then
      { s with mouthOpenStart := start, mouthOpenDuration := dur,
               yawnCount := s.yawnCount + 1, lastYawnTime := now,
               mouthWasOpen := true }
    else
      { s with mouthOpenStart := start, mouthOpenDuration := dur,
               mouthWasOpen := true }
  else
    { s with mouthOpenDuration := 0, mouthWasOpen := false }

/-- Baseline update of `processHeadPosition`: established from the average of
the history once at least 30 readings have accumulated, frozen afterwards. -/
def updatedBaseline (s : State) : Option ℚ :=
  if s.headYBaseline = none ∧ 30 ≤ s.headYHistory.length then
    some (s.headYHistory.sum / s.headYHistory.length)
  else s.headYBaseline

/-- Droop-event update of `processHeadPosition`: with an established baseline,
a droop event is counted when the sample sits more than
`HEAD_DROOP_THRESHOLD` below baseline and the trailing-10 average of the
(already pushed) history confirms at least 80 percent of that threshold. -/
def droopEventsAfter (headY : ℚ) (hist : List ℚ) (baseline : Option ℚ)
    (events : ℕ) : ℕ :=
  match baseline with
  | none => events
  | some b =>
    if headY - b > HEAD_DROOP_THRESHOLD then
      (if (hist.drop (hist.length - 10)).sum / 10 - b > HEAD_DROOP_THRESHOLD * 0.8 then
        events + 1
      else events)
    else events

/-- `processHeadPosition(headY)`: baseline update, push into a 60-sample FIFO
window (`shift()` evicts the oldest sample), then droop detection. -/
def processHeadPosition (headY : ℚ) (s : State) : State :=
  let baseline := updatedBaseline s
  let hist1 := s.headYHistory ++ [headY]
  let hist := if 60 < hist1.length then hist1.tail else hist1
  { s with headYBaseline := baseline, headYHistory := hist,
           headDroopEvents := droopEventsAfter headY hist baseline s.headDroopEvents }

/-- `recordBreak()` at wall-clock `now`: records the break time and relieves
the fatigue evidence, lowering `yawnCount` by 2 and `headDroopEvents` by 1,
both floored at 0 (`Math.max(0, ...)`, here `ℕ` subtraction). -/
def recordBreak (now : ℤ) (s : State) : State :=
  { s with lastBreakTime := some now,
           yawnCount := s.yawnCount - 2,
           headDroopEvents := s.headDroopEvents - 1 }

/-- `reset()`: clears the counters, histories and baseline. -/
def reset (s : State) : State :=
  { s with yawnCount := 0, headDroopEvents := 0,
           headYHistory := [], headYBaseline := none }

/-- `startSession()` at wall-clock `now`: stamps the session and break times,
then calls `reset()`. -/
def startSession (now : ℤ) (s : State) : State :=
  reset { s with sessionStartTime := some now, lastBreakTime := some now }

end FatigueDetector

/-! ### Session statistics of the AccessMate store
(the `stats` slice of `useAccessMateStore`)

The gesture counter lives here, not in a detector: `incrementGestureCount`
is its only writer. The store's `startSession`, `endSession` and
`recordBreak` touch only the session timestamps and the usage total.
-/

namespace AccessMateStore

structure Stats where
  sessionStartTime : Option ℤ
  clickCount : ℕ
  gestureCount : ℕ
  totalUsageTime : ℤ
  lastBreakTime : Option ℤ
  deriving DecidableEq

/-- The initial `stats` record of the store. -/
def init : Stats :=
  { sessionStartTime := none, clickCount := 0, gestureCount := 0,
    totalUsageTime := 0, lastBreakTime := none }

/-- `incrementClickCount()`. -/
def incrementClickCount (s : Stats) : Stats :=
  { s with clickCount := s.clickCount + 1 }

/-- `incrementGestureCount()`. -/
def incrementGestureCount (s : Stats) : Stats :=
  { s with gestureCount := s.gestureCount + 1 }

/-- `startSession()` of the store: stamps the session start only. -/
def startSession (now : ℤ) (s : Stats) : Stats :=
  { s with sessionStartTime := some now }

/-- `endSession()` of the store: folds the session duration into the usage
total; with no running session it leaves the state unchanged. -/
def endSession (now : ℤ) (s : Stats) : Stats :=
  match s.sessionStartTime with
  | some t =>
    { s with sessionStartTime := none,
             totalUsageTime := s.totalUsageTime + (now - t) }
  | none => s

/-- `recordBreak()` of the store: stamps the break time only. -/
def recordBreak (now : ℤ) (s : Stats) : Stats :=
  { s with lastBreakTime := some now }

end AccessMateStore

/-! ### Finger counting and gesture classification
(fingerCounting.ts and gestureCommands.ts)

Hand landmarks are exact rationals; all the classifier does is compare
coordinates. The `GestureType` string union of the source (with `null`)
becomes `Option Gesture`.
-/

inductive Gesture where
  | fist | openPalm | thumbsUp | thumbsDown | peaceSign
  | pointUp | pointLeft | pointRight | rockSign | okSign | ok | callMe
  | oneFingers | twoFingers | threeFingers | fourFingers | fiveFingers
  deriving DecidableEq

structure HandLandmark where
  x : ℚ
  y : ℚ
  z : ℚ
  deriving DecidableEq

/-- A hand landmark set, indexed by the MediaPipe 21-point scheme. -/
def HandLandmarks : Type := ℕ → HandLandmark

structure FingerStates where
  thumb : Bool
  index : Bool
  middle : Bool
  ring : Bool
  pinky : Bool
  deriving DecidableEq

/-- The raised-finger count: each raised finger contributes 1, in the order
thumb, index, middle, ring, pinky in which `countFingers` increments. -/
def countOf (fs : FingerStates) : ℕ :=
  (cond fs.thumb 1 0) + (cond fs.index 1 0) + (cond fs.middle 1 0)
    + (cond fs.ring 1 0) + (cond fs.pinky 1 0)

/-- `detectGesture(states)` of fingerCounting.ts: an exact-pattern table over
the five raised-finger booleans with NO count-based fallback — unmatched
patterns yield `null`. -/
def detectGesture (s : FingerStates) : Option String :=
  if !s.thumb && s.index && s.middle && !s.ring && !s.pinky then some "Peace Sign"
  else if s.thumb && !s.index && !s.middle && !s.ring && !s.pinky then some "Thumbs Up"
  else if s.thumb && s.index && !s.middle && !s.ring && !s.pinky then some "Point"
  else if !s.thumb && s.index && !s.middle && !s.ring && s.pinky then some "Rock Sign"
  else if s.thumb && !s.index && !s.middle && !s.ring && s.pinky then some "Call Me"
  else if !s.thumb && !s.index && !s.middle && !s.ring && !s.pinky then some "Fist"
  else if s.thumb && s.index && s.middle && s.ring && s.pinky then some "Open Hand"
  else if !s.thumb && s.index && s.middle && s.ring && !s.pinky then some "Three"
  else if !s.thumb && s.index && s.middle && s.ring && s.pinky then some "Four"
  else none

structure FingerCountResult where
  count : ℕ
  fingers : List String
  fingerStates : FingerStates
  gesture : Option String
  deriving DecidableEq

/-- `countFingers(landmarks, isRightHand)`: the thumb is raised by a
horizontal tip-versus-IP-joint comparison whose direction depends on
handedness; the other four fingers are raised when the tip y-coordinate is
numerically less than the PIP joint y-coordinate (image y grows downward). -/
def countFingers (landmarks : HandLandmarks) (isRightHand : Bool) :
    FingerCountResult :=
  let thumb : Bool :=
    if isRightHand then decide ((landmarks 4).x < (landmarks 3).x)
    else decide ((landmarks 3).x < (landmarks 4).x)
  let index : Bool := decide ((landmarks 8).y < (landmarks 6).y)
  let middle : Bool := decide ((landmarks 12).y < (landmarks 10).y)
  let ring : Bool := decide ((landmarks 16).y < (landmarks 14).y)
  let pinky : Bool := decide ((landmarks 20).y < (landmarks 18).y)
  let fingerStates : FingerStates :=
    { thumb := thumb, index := index, middle := middle, ring := ring, pinky := pinky }
  { count := countOf fingerStates,
    fingers := (cond thumb ["Thumb"] []) ++ (cond index ["Index"] [])
      ++ (cond middle ["Middle"] []) ++ (cond ring ["Ring"] [])
      ++ (cond pinky ["Pinky"] []),
    fingerStates := fingerStates,
    gesture := detectGesture fingerStates }

structure GestureResult where
  gesture : Option Gesture
  confidence : ℚ
  fingerCount : ℕ
  fingerStates : FingerStates
  deriving DecidableEq

namespace GestureRecognizer

/-- The decision chain of `GestureRecognizer.recognize` after `countFingers`:
exact boolean patterns first (with the thumbs-up versus thumbs-down split on
whether the thumb tip sits above the wrist), then the count-based fallback
for counts 1 through 5; the trailing `null` of the source is unreachable
because the count is the popcount of the five booleans. -/
def recognizeFrom (count : ℕ) (s : FingerStates) (thumbAboveWrist : Bool) :
    Option Gesture × ℚ :=
  if count = 0 then (some .fist, 0.95)
  else if s.thumb && !s.index && !s.middle && !s.ring && !s.pinky then
    (if thumbAboveWrist then (some .thumbsUp, 0.9) else (some .thumbsDown, 0.85))
  else if !s.thumb && s.index && !s.middle && !s.ring && !s.pinky then (some .pointUp, 0.9)
  else if !s.thumb && s.index && s.middle && !s.ring && !s.pinky then (some .peaceSign, 0.9)
  else if !s.thumb && s.index && s.middle && s.ring && !s.pinky then (some .threeFingers, 0.85)
  else if !s.thumb && s.index && s.middle && s.ring && s.pinky then (some .fourFingers, 0.85)
  else if s.thumb && s.index && s.middle && s.ring && s.pinky then (some .openPalm, 0.95)
  else if !s.thumb && s.index && !s.middle && !s.ring && s.pinky then (some .rockSign, 0.85)
  else if s.thumb && !s.index && !s.middle && !s.ring && s.pinky then (some .callMe, 0.85)
  else if count = 1 then (some .oneFingers, 0.8)
  else if count = 2 then (some .twoFingers, 0.8)
  else if count = 3 then (some .threeFingers, 0.8)
  else if count = 4 then (some .fourFingers, 0.8)
  else if count = 5 then (some .fiveFingers, 0.8)
  else (none, 0.8)

/-- `GestureRecognizer.recognize(landmarks, isRightHand)`: finger counting
followed by the decision chain; the thumb-direction test compares the thumb
tip (index 4) against the wrist (index 0). -/
def recognize (landmarks : HandLandmarks) (isRightHand : Bool) : GestureResult :=
  let fingerResult := countFingers landmarks isRightHand
  let gc := recognizeFrom fingerResult.count fingerResult.fingerStates
    (decide ((landmarks 4).y < (landmarks 0).y))
  { gesture := gc.1, confidence := gc.2,
    fingerCount := fingerResult.count, fingerStates := fingerResult.fingerStates }

structure State where
  lastGesture : Option Gesture
  gestureStartTime : Option ℤ
  gestureHoldTime : ℤ
  lastGestureTime : ℤ
  MIN_HOLD_TIME : ℤ
  deriving DecidableEq

/-- A fresh `new GestureRecognizer()`: `MIN_HOLD_TIME = 300`,
`lastGestureTime = 0`. -/
def init : State :=
  { lastGesture := none, gestureStartTime := none, gestureHoldTime := 0,
    lastGestureTime := 0, MIN_HOLD_TIME := 300 }

def GESTURE_COOLDOWN : ℤ := 500

/-- The hold/cooldown state machine of `detectHeldGesture`, driven by the
per-poll recognized gesture `g` and the wall clock `now`: inside the cooldown
window it returns `null` untouched; otherwise it accumulates hold time while
the same gesture persists (restarting the timer on a gesture change), and
fires once the hold time reaches `MIN_HOLD_TIME` for a non-null gesture,
resetting the held-gesture state and stamping the cooldown. -/
def detectHeldGestureStep (g : Option Gesture) (now : ℤ) (s : State) :
    Option Gesture × State :=
  if now - s.lastGestureTime < GESTURE_COOLDOWN then (none, s)
  else
    let s1 :=
      if g = s.lastGesture then
        (match s.gestureStartTime with
         | some t0 => { s with gestureHoldTime := now - t0 }
         | none => s)
      else
        { s with lastGesture := g, gestureStartTime := some now, gestureHoldTime := 0 }
    if s1.gestureHoldTime ≥ s.MIN_HOLD_TIME ∧ g ≠ none then
      (s1.lastGesture,
       { s1 with lastGestureTime := now, gestureStartTime := none,
                 gestureHoldTime := 0, lastGesture := none })
    else (none, s1)

/-- `detectHeldGesture(landmarks, isRightHand)` at wall-clock `now`. -/
def detectHeldGesture (landmarks : HandLandmarks) (isRightHand : Bool)
    (now : ℤ) (s : State) : Option Gesture × State :=
  detectHeldGestureStep (recognize landmarks isRightHand).gesture now s

/-- `setHoldTime(ms)` assigns the raw argument to `MIN_HOLD_TIME` through an
`any`-cast, without any validation or clamping. -/
def setHoldTime (ms : ℤ) (s : State) : State := { s with MIN_HOLD_TIME := ms }

/-- `reset()`. -/
def reset (s : State) : State :=
  { s with lastGesture := none, gestureStartTime := none, gestureHoldTime := 0 }

end GestureRecognizer

/-! ### Geometry: EAR engine (blinkDetection.ts), eye gestures
(faceGestures section of gestureCommands.ts) and head tracking
(headTracking.ts)

These definitions use `ℝ` since the source computes with `Math.sqrt` and
`Math.atan2`; the spec states the corresponding properties over the idealized
real-number semantics of the distance formula.
-/

structure Landmark where
  x : ℝ
  y : ℝ
  z : ℝ

/-- A face landmark set, indexed by the MediaPipe Face Mesh scheme. -/
def Landmarks : Type := ℕ → Landmark

structure EyePoints where
  p1 : ℕ
  p2 : ℕ
  p3 : ℕ
  p4 : ℕ
  p5 : ℕ
  p6 : ℕ

/-- Left-eye EAR indices (outer corner, upper lids, inner corner, lower
lids); identical tables appear in blinkDetection.ts and gestureCommands.ts. -/
def LEFT_EYE_EAR_POINTS : EyePoints :=
  { p1 := 33, p2 := 160, p3 := 158, p4 := 133, p5 := 153, p6 := 144 }

/-- Right-eye EAR indices. -/
def RIGHT_EYE_EAR_POINTS : EyePoints :=
  { p1 := 362, p2 := 385, p3 := 387, p4 := 263, p5 := 373, p6 := 380 }

/-- `euclideanDistance(p1, p2)`: planar (x, y) distance; z is ignored. -/
noncomputable def euclideanDistance (p1 p2 : Landmark) : ℝ :=
  Real.sqrt ((p1.x - p2.x) ^ 2 + (p1.y - p2.y) ^ 2)

/-- `calculateEAR(landmarks, eyePoints)`: the two vertical lid distances over
twice the horizontal corner distance, with the division-by-zero guard
returning 0 when the horizontal distance is 0. -/
noncomputable def calculateEAR (landmarks : Landmarks) (eyePoints : EyePoints) : ℝ :=
  let p1 := landmarks eyePoints.p1
  let p2 := landmarks eyePoints.p2
  let p3 := landmarks eyePoints.p3
  let p4 := landmarks eyePoints.p4
  let p5 := landmarks eyePoints.p5
  let p6 := landmarks eyePoints.p6
  let vertical1 := euclideanDistance p2 p6
  let vertical2 := euclideanDistance p3 p5
  let horizontal := euclideanDistance p1 p4
  if horizontal = 0 then 0
  else (vertical1 + vertical2) / (2 * horizontal)

/-- Uniform scaling of every coordinate of every landmark by `k`. -/
def scaleLandmarks (k : ℝ) (landmarks : Landmarks) : Landmarks :=
  fun i => { x := k * (landmarks i).x, y := k * (landmarks i).y, z := k * (landmarks i).z }

namespace EyeGestureDetector

structure State where
  leftEARHistory : List ℝ
  rightEARHistory : List ℝ
  WINK_THRESHOLD : ℝ
  OPEN_THRESHOLD : ℝ

/-- A fresh `new EyeGestureDetector()`: empty histories, wink threshold 0.18,
open threshold 0.22. -/
noncomputable def init : State :=
  { leftEARHistory := [], rightEARHistory := [],
    WINK_THRESHOLD := 0.18, OPEN_THRESHOLD := 0.22 }

def HISTORY_SIZE : ℕ := 5

noncomputable def WINK_DIFF_THRESHOLD : ℝ := 0.08

structure EyeState where
  leftOpen : Bool
  rightOpen : Bool
  leftEAR : ℝ
  rightEAR : ℝ
  isWinkingLeft : Bool
  isWinkingRight : Bool
  isBothClosed : Bool

/-- `EyeGestureDetector.detect(landmarks)`: per-eye EAR pushed into 5-sample
moving-average histories (the source shifts both on the left history length);
an eye is open when its smoothed EAR exceeds `OPEN_THRESHOLD`; a wink on one
side requires that eye not open, the other open, and the absolute smoothed
difference above `WINK_DIFF_THRESHOLD`. The returned `leftEAR`/`rightEAR` are
the smoothed averages. -/
noncomputable def detect (landmarks : Landmarks) (s : State) : EyeState × State :=
  let leftEAR := calculateEAR landmarks LEFT_EYE_EAR_POINTS
  let rightEAR := calculateEAR landmarks RIGHT_EYE_EAR_POINTS
  let lh1 := s.leftEARHistory ++ [leftEAR]
  let rh1 := s.rightEARHistory ++ [rightEAR]
  let lh := if HISTORY_SIZE < lh1.length then lh1.tail else lh1
  let rh := if HISTORY_SIZE < lh1.length then rh1.tail else rh1
  let avgLeftEAR := lh.sum / lh.length
  let avgRightEAR := rh.sum / rh.length
  let leftOpen : Bool := decide (avgLeftEAR > s.OPEN_THRESHOLD)
  let rightOpen : Bool := decide (avgRightEAR > s.OPEN_THRESHOLD)
  let earDiff := |avgLeftEAR - avgRightEAR|
  let isWinkingLeft : Bool := !leftOpen && rightOpen && decide (earDiff > WINK_DIFF_THRESHOLD)
  let isWinkingRight : Bool := !rightOpen && leftOpen && decide (earDiff > WINK_DIFF_THRESHOLD)
  let isBothClosed : Bool :=
    decide (avgLeftEAR < s.WINK_THRESHOLD) && decide (avgRightEAR < s.WINK_THRESHOLD)
  ({ leftOpen := leftOpen, rightOpen := rightOpen,
     leftEAR := avgLeftEAR, rightEAR := avgRightEAR,
     isWinkingLeft := isWinkingLeft, isWinkingRight := isWinkingRight,
     isBothClosed := isBothClosed },
   { s with leftEARHistory := lh, rightEARHistory := rh })

end EyeGestureDetector

namespace HeadTracker

structure CalibrationData where
  centerX : ℝ
  centerY : ℝ
  rangeX : ℝ
  rangeY : ℝ
  isCalibrated : Bool

structure State where
  calibration : CalibrationData
  smoothedX : ℝ
  smoothedY : ℝ
  smoothingFactor : ℝ

/-- A fresh `new HeadTracker()` with the default calibration. -/
noncomputable def init : State :=
  { calibration :=
      { centerX := 0.5, centerY := 0.5, rangeX := 0.3, rangeY := 0.2,
        isCalibrated := false },
    smoothedX := 0, smoothedY := 0, smoothingFactor := 0.7 }

structure HeadPosition where
  x : ℝ
  y : ℝ
  tilt : ℝ
  yaw : ℝ
  pitch : ℝ

/-- `Math.atan2(y, x)`: the argument of the complex number `x + y i`. -/
noncomputable def atan2 (y x : ℝ) : ℝ := Complex.arg { re := x, im := y }

/-- `setSmoothing(factor)` clamps its argument into [0, 1]. -/
noncomputable def setSmoothing (factor : ℝ) (s : State) : State :=
  { s with smoothingFactor := max 0 (min 1 factor) }

/-- `track(landmarks)`: nose position normalized by the calibration, clamped
to [-1, 1], exponentially smoothed; tilt, yaw and pitch from the eye, nose,
forehead and chin landmarks, with the `|| 0.1` falsy-guards of the source on
the denominators. -/
noncomputable def track (landmarks : Landmarks) (s : State) :
    HeadPosition × State :=
  let nose := landmarks 4
  let forehead := landmarks 10
  let chin := landmarks 152
  let leftEye := landmarks 33
  let rightEye := landmarks 263
  let rawX0 := (nose.x - s.calibration.centerX) / s.calibration.rangeX
  let rawY0 := (nose.y - s.calibration.centerY) / s.calibration.rangeY
  let rawX := max (-1) (min 1 rawX0)
  let rawY := max (-1) (min 1 rawY0)
  let smoothedX := s.smoothedX * s.smoothingFactor + rawX * (1 - s.smoothingFactor)
  let smoothedY := s.smoothedY * s.smoothingFactor + rawY * (1 - s.smoothingFactor)
  let tilt := atan2 (rightEye.y - leftEye.y) (rightEye.x - leftEye.x)
  let eyeCenter := (leftEye.x + rightEye.x) / 2
  let noseToEyeCenter := nose.x - eyeCenter
  let eyeDistance := |rightEye.x - leftEye.x|
  let yaw := atan2 (noseToEyeCenter * 2) (if eyeDistance = 0 then 0.1 else eyeDistance)
  let faceHeight := |forehead.y - chin.y|
  let noseOffset := nose.y - forehead.y
  let normalizedPitch := noseOffset / (if faceHeight = 0 then 0.1 else faceHeight)
  let pitch := atan2 (normalizedPitch - 0.5) 1
  ({ x := smoothedX, y := smoothedY, tilt := tilt, yaw := yaw, pitch := pitch },
   { s with smoothedX := smoothedX, smoothedY := smoothedY })

/-- `calibrate(landmarks)`: center on the current nose position with the
fixed comfortable ranges, and reset the smoothed values to 0. -/
noncomputable def calibrate (landmarks : Landmarks) (s : State) :
    CalibrationData × State :=
  let nose := landmarks 4
  let calibration : CalibrationData :=
    { centerX := nose.x, centerY := nose.y, rangeX := 0.25, rangeY := 0.15,
      isCalibrated := true }
  (calibration, { s with calibration := calibration, smoothedX := 0, smoothedY := 0 })

/-- `reset()`. -/
noncomputable def reset (s : State) : State :=
  { s with smoothedX := 0, smoothedY := 0 }

end HeadTracker

namespace BlinkDetector

theorem feed_below (ears : List ℚ) (s : State)
    (h : ∀ e ∈ ears, e < s.earThreshold) :
    feed ears s = { s with frameCounter := s.frameCounter + ears.length } := by
  induction ears generalizing s with
  | nil => simp [feed]
  | cons e rest ih =>
    have he : e < s.earThreshold := h e (by simp)
    have hstep : step e s = { s with frameCounter := s.frameCounter + 1 } := by
      simp [step, he]
    have hrest : ∀ x ∈ rest, x < ({ s with frameCounter := s.frameCounter + 1 } : State).earThreshold := by
      intro x hx
      exact h x (by simp [hx])
    calc feed (e :: rest) s
        = feed rest (step e s) := by simp [feed]
      _ = feed rest { s with frameCounter := s.frameCounter + 1 } := by rw [hstep]
      _ = { s with frameCounter := s.frameCounter + 1 + rest.length } := ih _ hrest
      _ = { s with frameCounter := s.frameCounter + (rest.length + 1) } := by
            congr 1
            omega
      _ = { s with frameCounter := s.frameCounter + (e :: rest).length } := by
            simp

end BlinkDetector

/-- C1: starting from a fresh `BlinkDetector` (threshold 0.21, CONSEC_FRAMES 2),
feeding `N` consecutive frames whose `avgEAR` is below the threshold followed by
one frame whose `avgEAR` is at or above it leaves `blinkCount = 1` when `N ≥ 2`
and `blinkCount = 0` when `N < 2`, and resets the consecutive-frame counter
to 0. -/
theorem blink_count_on_run (ears : List ℚ) (a : ℚ)
    (hbelow : ∀ e ∈ ears, e < 0.21) (habove : (0.21 : ℚ) ≤ a) :
    (BlinkDetector.feed (ears ++ [a]) BlinkDetector.init).blinkCount
        = (if 2 ≤ ears.length then 1 else 0) ∧
    (BlinkDetector.feed (ears ++ [a]) BlinkDetector.init).frameCounter = 0 := by
  have hbelow' : ∀ e ∈ ears, e < (BlinkDetector.init).earThreshold := by
    intro e he
    exact hbelow e he
  have hfeed : BlinkDetector.feed ears BlinkDetector.init
      = { BlinkDetector.init with frameCounter := ears.length } := by
    have := BlinkDetector.feed_below ears BlinkDetector.init hbelow'
    simpa [BlinkDetector.init] using this
  have happ : BlinkDetector.feed (ears ++ [a]) BlinkDetector.init
      = BlinkDetector.step a (BlinkDetector.feed ears BlinkDetector.init) := by
    simp [BlinkDetector.feed, List.foldl_append]
  rw [happ, hfeed]
  have hnotlt : ¬ a < (0.21 : ℚ) := not_lt.mpr habove
  by_cases hn : 2 ≤ ears.length
  · simp [BlinkDetector.step, BlinkDetector.CONSEC_FRAMES, hnotlt, hn, BlinkDetector.init]
  · simp [BlinkDetector.step, BlinkDetector.CONSEC_FRAMES, hnotlt, hn, BlinkDetector.init]

/-- Witness for C1 at the concrete sequences of the claim:
`[0.1, 0.1, 0.25]` yields `blinkCount = 1` and `[0.1, 0.25]` yields
`blinkCount = 0`, in both cases with the consecutive-frame counter reset. -/
theorem blink_count_on_run_witness :
    (BlinkDetector.feed [0.1, 0.1, 0.25] BlinkDetector.init).blinkCount = 1 ∧
    (BlinkDetector.feed [0.1, 0.1, 0.25] BlinkDetector.init).frameCounter = 0 ∧
    (BlinkDetector.feed [0.1, 0.25] BlinkDetector.init).blinkCount = 0 ∧
    (BlinkDetector.feed [0.1, 0.25] BlinkDetector.init).frameCounter = 0 := by
  have h2 := blink_count_on_run [0.1, 0.1] 0.25
    (by intro e he; simp at he; rw [he]; norm_num)
    (by norm_num)
  have h1 := blink_count_on_run [0.1] 0.25
    (by intro e he; simp at he; rw [he]; norm_num)
    (by norm_num)
  exact ⟨h2.1, h2.2, h1.1, h1.2⟩

namespace SleepDetector

theorem eyeScore_le (e : ℕ) : eyeScore e ≤ 100 := min_le_left _ _

theorem headScore_le (h : ℕ) : headScore h ≤ 40 := min_le_left _ _

theorem jsRound_le_of_le {q : ℚ} {n : ℤ} (h : q ≤ (n : ℚ)) : jsRound q ≤ n := by
  have hfl : jsRound q < n + 1 := by
    rw [jsRound]
    exact Int.floor_lt.mpr (by push_cast; linarith)
  omega

theorem detectStep_score_eq (eyesClosed isHeadDown : Bool) (now : ℤ) (s : State) :
    (detectStep eyesClosed isHeadDown now s).1.sleepScore
      = jsRound (min 100 (eyeScore (detectStep eyesClosed isHeadDown now s).2.eyeClosedFrames
          + headScore (detectStep eyesClosed isHeadDown now s).2.headDownFrames)) := by
  simp [detectStep]

end SleepDetector

namespace FatigueDetector

theorem droopEventsAfter_ge (headY : ℚ) (hist : List ℚ) (baseline : Option ℚ)
    (events : ℕ) : events ≤ droopEventsAfter headY hist baseline events := by
  cases baseline with
  | none => simp [droopEventsAfter]
  | some b =>
    simp only [droopEventsAfter]
    split_ifs <;> simp

end FatigueDetector

/-- C2 counterexample: from the state with `eyeClosedFrames = 89` and
`headDownFrames = 0`, one more eyes-closed frame gives
`eyeClosedFrames = 90`, a head contribution of exactly 0, and a returned sleep
score of 100 — the eye contribution alone reaches 100, refuting the claim that
it never exceeds 60 (`eyeScore` is capped at 100 in the source, not 60). -/
theorem sleep_score_eye_cap_counterexample :
    (SleepDetector.detectStep true false 0
        { eyeClosedFrames := 89, headDownFrames := 0,
          sleepStartTime := none, totalSleepDuration := 0 }).1.sleepScore = 100 ∧
    (SleepDetector.detectStep true false 0
        { eyeClosedFrames := 89, headDownFrames := 0,
          sleepStartTime := none, totalSleepDuration := 0 }).2.headDownFrames = 0 ∧
    SleepDetector.headScore 0 = 0 ∧
    60 < SleepDetector.eyeScore 90 := by
  refine ⟨?_, ?_, ?_, ?_⟩
  · norm_num [SleepDetector.detectStep, SleepDetector.eyeScore,
      SleepDetector.headScore, SleepDetector.jsRound,
      SleepDetector.EYE_CLOSED_THRESHOLD, SleepDetector.HEAD_DOWN_THRESHOLD]
  · norm_num [SleepDetector.detectStep]
  · norm_num [SleepDetector.headScore]
  · norm_num [SleepDetector.eyeScore]

/-- C2 (amended): the sleep confidence score returned by `detect` is
`min(100, eyeScore + headScore)` rounded, where the head contribution is
bounded by 40 and the eye contribution by 100 (not 60: it exceeds 60 once
`eyeClosedFrames` passes 75), and the returned total is capped at 100. -/
theorem sleep_score_bounds (eyesClosed isHeadDown : Bool) (now : ℤ)
    (s : SleepDetector.State) :
    SleepDetector.eyeScore (SleepDetector.detectStep eyesClosed isHeadDown now s).2.eyeClosedFrames ≤ 100 ∧
    SleepDetector.headScore (SleepDetector.detectStep eyesClosed isHeadDown now s).2.headDownFrames ≤ 40 ∧
    (SleepDetector.detectStep eyesClosed isHeadDown now s).1.sleepScore ≤ 100 := by
  refine ⟨SleepDetector.eyeScore_le _, SleepDetector.headScore_le _, ?_⟩
  rw [SleepDetector.detectStep_score_eq]
  exact SleepDetector.jsRound_le_of_le (by exact_mod_cast min_le_left _ _)

/-- C4 counterexample: `recordBreak` is not a reset operation, yet it lowers
the yawn counter from 5 to 3 and the head-droop counter from 2 to 1. -/
theorem record_break_lowers_counters :
    (FatigueDetector.recordBreak 0
        { FatigueDetector.init with yawnCount := 5, headDroopEvents := 2 }).yawnCount = 3 ∧
    (FatigueDetector.recordBreak 0
        { FatigueDetector.init with yawnCount := 5, headDroopEvents := 2 }).headDroopEvents = 1 ∧
    (FatigueDetector.recordBreak 0
        { FatigueDetector.init with yawnCount := 5, headDroopEvents := 2 }).yawnCount
      < ({ FatigueDetector.init with yawnCount := 5, headDroopEvents := 2 } : FatigueDetector.State).yawnCount := by
  refine ⟨rfl, rfl, ?_⟩
  simp [FatigueDetector.recordBreak]

/-- C4 (amended): the cumulative counters — blink count, yawn count, gesture
count and head-droop events — are non-decreasing across every per-frame
processing call (`BlinkDetector.detect` step, `processMouthState`,
`processHeadPosition`) and across every writer of the store's gesture
counter; the explicit resets (`reset`, `startSession`, `resetBlinkCount`)
set the detector counters to 0; and `recordBreak` on the `FatigueDetector` —
contrary to the original claim — lowers `yawnCount` by 2 and
`headDroopEvents` by 1, floored at 0, while `gestureCount` is increment-only
(`incrementGestureCount` is its sole writer; the store's `startSession`,
`endSession` and `recordBreak` leave it untouched). -/
theorem counters_monotone (now : ℤ) (isMouthOpen : Bool) (mouthOpenRatio : ℚ)
    (headY : ℚ) (s : FatigueDetector.State) (avgEAR : ℚ) (sb : BlinkDetector.State)
    (st : AccessMateStore.Stats) :
    s.yawnCount ≤ (FatigueDetector.processMouthState now isMouthOpen mouthOpenRatio s).yawnCount ∧
    (FatigueDetector.processMouthState now isMouthOpen mouthOpenRatio s).headDroopEvents = s.headDroopEvents ∧
    (FatigueDetector.processHeadPosition headY s).yawnCount = s.yawnCount ∧
    s.headDroopEvents ≤ (FatigueDetector.processHeadPosition headY s).headDroopEvents ∧
    sb.blinkCount ≤ (BlinkDetector.step avgEAR sb).blinkCount ∧
    (FatigueDetector.recordBreak now s).yawnCount = s.yawnCount - 2 ∧
    (FatigueDetector.recordBreak now s).headDroopEvents = s.headDroopEvents - 1 ∧
    (FatigueDetector.reset s).yawnCount = 0 ∧
    (FatigueDetector.reset s).headDroopEvents = 0 ∧
    (FatigueDetector.startSession now s).yawnCount = 0 ∧
    (FatigueDetector.startSession now s).headDroopEvents = 0 ∧
    (BlinkDetector.resetBlinkCount sb).blinkCount = 0 ∧
    (AccessMateStore.incrementGestureCount st).gestureCount = st.gestureCount + 1 ∧
    st.gestureCount ≤ (AccessMateStore.incrementGestureCount st).gestureCount ∧
    (AccessMateStore.recordBreak now st).gestureCount = st.gestureCount ∧
    (AccessMateStore.startSession now st).gestureCount = st.gestureCount ∧
    (AccessMateStore.endSession now st).gestureCount = st.gestureCount ∧
    (AccessMateStore.incrementClickCount st).gestureCount = st.gestureCount := by
  refine ⟨?_, ?_, ?_, ?_, ?_, rfl, rfl, rfl, rfl, rfl, rfl, rfl,
    rfl, Nat.le_succ _, rfl, rfl, ?_, rfl⟩
  · unfold FatigueDetector.processMouthState
    dsimp only
    split_ifs <;> simp
  · unfold FatigueDetector.processMouthState
    dsimp only
    split_ifs <;> simp
  · rfl
  · exact FatigueDetector.droopEventsAfter_ge _ _ _ _
  · unfold BlinkDetector.step
    split_ifs <;> simp
  · unfold AccessMateStore.endSession
    cases st.sessionStartTime <;> rfl

/-- C3: evaluation of the setters at out-of-range inputs. `setThreshold(-1)`
stores the negative threshold unmodified, and `setHoldTime(-50)` stores the
negative hold time unmodified — neither clamps nor rejects at the setter
boundary (the same raw `any`-cast assignment is used by
`SleepDetector.setThresholds`); only `HeadTracker.setSmoothing` clamps, here
mapping -1 to 0. -/
theorem setters_store_raw_values :
    (BlinkDetector.setThreshold (-1) BlinkDetector.init).earThreshold = -1 ∧
    (BlinkDetector.setThreshold (-1) BlinkDetector.init).earThreshold < 0 ∧
    (GestureRecognizer.setHoldTime (-50) GestureRecognizer.init).MIN_HOLD_TIME = -50 ∧
    (HeadTracker.setSmoothing (-1) HeadTracker.init).smoothingFactor = 0 := by
  refine ⟨rfl, ?_, rfl, ?_⟩
  · norm_num [BlinkDetector.setThreshold, BlinkDetector.init]
  · have h1 : min (1 : ℝ) (-1) = -1 := min_eq_right (by norm_num)
    have h2 : max (0 : ℝ) (-1) = 0 := max_eq_left (by norm_num)
    simp [HeadTracker.setSmoothing, HeadTracker.init, h1, h2]

theorem euclideanDistance_nonneg (p q : Landmark) : 0 ≤ euclideanDistance p q :=
  Real.sqrt_nonneg _

theorem calculateEAR_origin_zero (eyePoints : EyePoints) :
    calculateEAR (fun _ => { x := 0, y := 0, z := 0 }) eyePoints = 0 := by
  unfold calculateEAR
  dsimp only
  rw [if_pos]
  norm_num [euclideanDistance]

/-- C5: for every landmark set (total on the six referenced eye indices), the
per-eye EAR is non-negative, and a horizontal eye-corner distance of 0 yields
exactly 0 rather than a division by zero. -/
theorem ear_nonneg_and_degenerate (landmarks : Landmarks) (eyePoints : EyePoints) :
    0 ≤ calculateEAR landmarks eyePoints ∧
    (euclideanDistance (landmarks eyePoints.p1) (landmarks eyePoints.p4) = 0 →
      calculateEAR landmarks eyePoints = 0) := by
  constructor
  · unfold calculateEAR
    dsimp only
    split_ifs with h
    · exact le_refl 0
    · exact div_nonneg
        (add_nonneg (euclideanDistance_nonneg _ _) (euclideanDistance_nonneg _ _))
        (mul_nonneg (by norm_num) (euclideanDistance_nonneg _ _))
  · intro h
    unfold calculateEAR
    dsimp only
    rw [if_pos h]

/-- Witness for C5: on the landmark set with every point at the origin the
horizontal eye-corner distance is 0 and the EAR is exactly 0. -/
theorem ear_nonneg_and_degenerate_witness :
    euclideanDistance
        ((fun _ => { x := 0, y := 0, z := 0 } : Landmarks) LEFT_EYE_EAR_POINTS.p1)
        ((fun _ => { x := 0, y := 0, z := 0 } : Landmarks) LEFT_EYE_EAR_POINTS.p4) = 0 ∧
    calculateEAR (fun _ => { x := 0, y := 0, z := 0 }) LEFT_EYE_EAR_POINTS = 0 := by
  have h0 : euclideanDistance
      ((fun _ => { x := 0, y := 0, z := 0 } : Landmarks) LEFT_EYE_EAR_POINTS.p1)
      ((fun _ => { x := 0, y := 0, z := 0 } : Landmarks) LEFT_EYE_EAR_POINTS.p4) = 0 := by
    norm_num [euclideanDistance]
  exact ⟨h0, (ear_nonneg_and_degenerate _ _).2 h0⟩

theorem euclideanDistance_scale (k : ℝ) (landmarks : Landmarks) (i j : ℕ) :
    euclideanDistance (scaleLandmarks k landmarks i) (scaleLandmarks k landmarks j)
      = |k| * euclideanDistance (landmarks i) (landmarks j) := by
  unfold euclideanDistance scaleLandmarks
  dsimp only
  rw [show (k * (landmarks i).x - k * (landmarks j).x) ^ 2
        + (k * (landmarks i).y - k * (landmarks j).y) ^ 2
      = k ^ 2 * (((landmarks i).x - (landmarks j).x) ^ 2
        + ((landmarks i).y - (landmarks j).y) ^ 2) by ring]
  rw [Real.sqrt_mul (sq_nonneg k), Real.sqrt_sq_eq_abs]

/-- C6: EAR is scale-invariant — multiplying every coordinate of every
landmark uniformly by a nonzero factor `k` leaves the computed EAR unchanged
(exactly, over the real-number semantics of the distance formula). -/
theorem ear_scale_invariant (landmarks : Landmarks) (eyePoints : EyePoints)
    (k : ℝ) (hk : k ≠ 0) :
    calculateEAR (scaleLandmarks k landmarks) eyePoints
      = calculateEAR landmarks eyePoints := by
  have habs : |k| ≠ 0 := abs_ne_zero.mpr hk
  unfold calculateEAR
  dsimp only
  rw [euclideanDistance_scale, euclideanDistance_scale, euclideanDistance_scale]
  by_cases h : euclideanDistance (landmarks eyePoints.p1) (landmarks eyePoints.p4) = 0
  · rw [if_pos (by rw [h, mul_zero]), if_pos h]
  · rw [if_neg (mul_ne_zero habs h), if_neg h]
    rw [show |k| * euclideanDistance (landmarks eyePoints.p2) (landmarks eyePoints.p6)
          + |k| * euclideanDistance (landmarks eyePoints.p3) (landmarks eyePoints.p5)
        = |k| * (euclideanDistance (landmarks eyePoints.p2) (landmarks eyePoints.p6)
          + euclideanDistance (landmarks eyePoints.p3) (landmarks eyePoints.p5)) by ring]
    rw [show 2 * (|k| * euclideanDistance (landmarks eyePoints.p1) (landmarks eyePoints.p4))
        = |k| * (2 * euclideanDistance (landmarks eyePoints.p1) (landmarks eyePoints.p4)) by ring]
    exact mul_div_mul_left _ _ habs

/-- Witness for C6: the scale factor 2 is nonzero and applying it to a
concrete landmark set leaves the left-eye EAR unchanged. -/
theorem ear_scale_invariant_witness :
    (2 : ℝ) ≠ 0 ∧
    calculateEAR (scaleLandmarks 2 (fun _ => { x := 1, y := 2, z := 0 })) LEFT_EYE_EAR_POINTS
      = calculateEAR (fun _ => { x := 1, y := 2, z := 0 }) LEFT_EYE_EAR_POINTS :=
  ⟨by norm_num, ear_scale_invariant _ _ 2 (by norm_num)⟩

/-- C7: whenever the smoothed left EAR returned by
`EyeGestureDetector.detect` equals the smoothed right EAR, neither wink flag
fires, for every detector state (any histories and thresholds): the absolute
difference is 0, which cannot exceed `WINK_DIFF_THRESHOLD = 0.08`. -/
theorem wink_requires_ear_gap (landmarks : Landmarks) (s : EyeGestureDetector.State)
    (h : (EyeGestureDetector.detect landmarks s).1.leftEAR
        = (EyeGestureDetector.detect landmarks s).1.rightEAR) :
    (EyeGestureDetector.detect landmarks s).1.isWinkingLeft = false ∧
    (EyeGestureDetector.detect landmarks s).1.isWinkingRight = false := by
  have h008 : ¬ ((0 : ℝ) > EyeGestureDetector.WINK_DIFF_THRESHOLD) := by
    norm_num [EyeGestureDetector.WINK_DIFF_THRESHOLD]
  unfold EyeGestureDetector.detect at h ⊢
  dsimp only at h ⊢
  rw [h, sub_self, abs_zero, decide_eq_false h008]
  constructor
  · rw [Bool.and_false]
  · rw [Bool.and_false]

/-- Witness for C7: on the all-origin landmark set from a fresh detector the
two smoothed EARs are both 0, so the hypothesis holds and both wink flags are
false. -/
theorem wink_requires_ear_gap_witness :
    (EyeGestureDetector.detect (fun _ => { x := 0, y := 0, z := 0 })
        EyeGestureDetector.init).1.leftEAR
      = (EyeGestureDetector.detect (fun _ => { x := 0, y := 0, z := 0 })
        EyeGestureDetector.init).1.rightEAR ∧
    (EyeGestureDetector.detect (fun _ => { x := 0, y := 0, z := 0 })
        EyeGestureDetector.init).1.isWinkingLeft = false ∧
    (EyeGestureDetector.detect (fun _ => { x := 0, y := 0, z := 0 })
        EyeGestureDetector.init).1.isWinkingRight = false := by
  have hEAR : ∀ eyePoints, calculateEAR (fun _ => { x := 0, y := 0, z := 0 }) eyePoints = 0 :=
    calculateEAR_origin_zero
  have h : (EyeGestureDetector.detect (fun _ => { x := 0, y := 0, z := 0 })
        EyeGestureDetector.init).1.leftEAR
      = (EyeGestureDetector.detect (fun _ => { x := 0, y := 0, z := 0 })
        EyeGestureDetector.init).1.rightEAR := by
    unfold EyeGestureDetector.detect
    dsimp only
    rw [hEAR, hEAR]
    simp [EyeGestureDetector.init]
  exact ⟨h, wink_requires_ear_gap _ _ h⟩

/-- C8: firing discipline of the gesture hold recognizer. When the polled
gesture is non-null, matches the held gesture, the hold timer started at `t0`
with `now - t0` at least `MIN_HOLD_TIME`, and the poll is outside the
cooldown window, `detectHeldGesture` fires (returns the gesture), resets the
held-gesture state (gesture, start time and hold time cleared), and every
subsequent poll within `GESTURE_COOLDOWN` of the fire returns `null` with the
state untouched, regardless of its input. -/
theorem held_gesture_fires_once_then_cooldown (s : GestureRecognizer.State)
    (g : Option Gesture) (now t0 : ℤ)
    (hg : g ≠ none) (hlast : s.lastGesture = g)
    (hstart : s.gestureStartTime = some t0)
    (hcool : GestureRecognizer.GESTURE_COOLDOWN ≤ now - s.lastGestureTime)
    (hhold : s.MIN_HOLD_TIME ≤ now - t0) :
    (GestureRecognizer.detectHeldGestureStep g now s).1 = g ∧
    (GestureRecognizer.detectHeldGestureStep g now s).2.lastGesture = none ∧
    (GestureRecognizer.detectHeldGestureStep g now s).2.gestureStartTime = none ∧
    (GestureRecognizer.detectHeldGestureStep g now s).2.gestureHoldTime = 0 ∧
    (∀ (g2 : Option Gesture) (now2 : ℤ),
      now2 - now < GestureRecognizer.GESTURE_COOLDOWN →
      GestureRecognizer.detectHeldGestureStep g2 now2
          (GestureRecognizer.detectHeldGestureStep g now s).2
        = (none, (GestureRecognizer.detectHeldGestureStep g now s).2)) := by
  have hnc : ¬ (now - s.lastGestureTime < GestureRecognizer.GESTURE_COOLDOWN) :=
    not_lt.mpr hcool
  have heq : GestureRecognizer.detectHeldGestureStep g now s
      = (g, { lastGesture := none, gestureStartTime := none, gestureHoldTime := 0,
              lastGestureTime := now, MIN_HOLD_TIME := s.MIN_HOLD_TIME }) := by
    unfold GestureRecognizer.detectHeldGestureStep
    rw [if_neg hnc, if_pos hlast.symm, hstart]
    dsimp only
    rw [if_pos ⟨hhold, hg⟩, hlast]
  rw [heq]
  refine ⟨rfl, rfl, rfl, rfl, ?_⟩
  intro g2 now2 h2
  unfold GestureRecognizer.detectHeldGestureStep
  rw [if_pos]
  exact h2

/-- Witness for C8: a concrete fire at time 1000 (gesture held since 700,
hold time 300 = MIN_HOLD_TIME, last fire at 0) returns the gesture, and the
next poll at 1200 — inside the 500 ms cooldown — returns `null`. -/
theorem held_gesture_fires_once_then_cooldown_witness :
    (GestureRecognizer.detectHeldGestureStep (some .fist) 1000
        { lastGesture := some .fist, gestureStartTime := some 700,
          gestureHoldTime := 0, lastGestureTime := 0, MIN_HOLD_TIME := 300 }).1
      = some .fist ∧
    GestureRecognizer.detectHeldGestureStep (some .fist) 1200
        (GestureRecognizer.detectHeldGestureStep (some .fist) 1000
          { lastGesture := some .fist, gestureStartTime := some 700,
            gestureHoldTime := 0, lastGestureTime := 0, MIN_HOLD_TIME := 300 }).2
      = (none,
        (GestureRecognizer.detectHeldGestureStep (some .fist) 1000
          { lastGesture := some .fist, gestureStartTime := some 700,
            gestureHoldTime := 0, lastGestureTime := 0, MIN_HOLD_TIME := 300 }).2) := by
  have h := held_gesture_fires_once_then_cooldown
    { lastGesture := some .fist, gestureStartTime := some 700,
      gestureHoldTime := 0, lastGestureTime := 0, MIN_HOLD_TIME := 300 }
    (some .fist) 1000 700 (by decide) rfl rfl (by decide) (by decide)
  exact ⟨h.1, h.2.2.2.2 (some .fist) 1200 (by decide)⟩

/-- C9: calibration round-trip of the head tracker — `calibrate(landmarks)`
followed by `track(landmarks)` on the same landmarks returns a head position
with `x = 0` and `y = 0` exactly (the claimed floating-point tolerance is not
needed over exact arithmetic), for every prior tracker state. -/
theorem calibrate_track_centered (landmarks : Landmarks) (s : HeadTracker.State) :
    (HeadTracker.track landmarks (HeadTracker.calibrate landmarks s).2).1.x = 0 ∧
    (HeadTracker.track landmarks (HeadTracker.calibrate landmarks s).2).1.y = 0 := by
  have hmin : min (1 : ℝ) 0 = 0 := min_eq_right (by norm_num)
  have hmax : max (-1 : ℝ) 0 = 0 := max_eq_right (by norm_num)
  unfold HeadTracker.track HeadTracker.calibrate
  dsimp only
  rw [sub_self, sub_self, zero_div, zero_div, hmin, hmax]
  constructor <;> ring

theorem recognizeFrom_total (s : FingerStates) (thumbAboveWrist : Bool) :
    (GestureRecognizer.recognizeFrom (countOf s) s thumbAboveWrist).1 ≠ none := by
  obtain ⟨t, i, m, r, p⟩ := s
  cases t <;> cases i <;> cases m <;> cases r <;> cases p <;> cases thumbAboveWrist <;> decide

/-- C10: `GestureRecognizer.recognize` is total — for every 21-landmark hand
input and handedness flag it returns a non-null gesture (count 0 maps to
fist, the exact boolean patterns cover part of the space, and the count-based
fallback covers every remaining count 1 through 5) — whereas the standalone
`detectGesture` classifier of fingerCounting.ts has no count fallback and
returns `null` for the unmatched pattern thumb+index+middle raised with ring
and pinky lowered. -/
theorem recognize_total_detectGesture_partial :
    (∀ (landmarks : HandLandmarks) (isRightHand : Bool),
      (GestureRecognizer.recognize landmarks isRightHand).gesture ≠ none) ∧
    detectGesture { thumb := true, index := true, middle := true,
                    ring := false, pinky := false } = none := by
  constructor
  · intro landmarks isRightHand
    exact recognizeFrom_total (countFingers landmarks isRightHand).fingerStates
      (decide ((landmarks 4).y < (landmarks 0).y))
  · rfl

/-- Witness for C10: the totality half applied at a concrete hand input. -/
theorem recognize_total_detectGesture_partial_witness :
    (GestureRecognizer.recognize (fun _ => { x := 0, y := 0, z := 0 }) true).gesture ≠ none :=
  recognize_total_detectGesture_partial.1 (fun _ => { x := 0, y := 0, z := 0 }) true
